import Mathlib

/-!
Shallow embedding of the connection-pool and query-execution core of the
postgresql-mcp repository, together with the `pg_read_query` / `pg_write_query`
tool handlers (`src/adapters/postgresql/tools/core.ts`) and the
`postgres://pool` resource handler (`src/adapters/postgresql/resources/pool.ts`).

The `ConnectionPool` class, the `PostgresAdapter` execution wrappers and the
`PoolError` type are not present under `src/`; only their unit tests and
callers are.  Those parts are modelled from the specification, with every
behaviour that the unit test file `src/pool/__tests__/ConnectionPool.test.ts`
pins down taken from that test file (it is repository source and therefore
authoritative where it and the spec disagree).

Asynchrony is collapsed to explicit state passing: each operation takes the
pool state (plus parameters describing the outcome of any network round trip
it performs) and returns its result together with the successor state.
A rejected promise is an `Except.error`; an operation whose TypeScript body
catches every error is total here.  The `networkCalls` field counts driver
round trips actually attempted, so that "no network call" claims are visible
in the state.
-/

/-- Test whether the first character list is a prefix of the second. -/
def charsStartWith : List Char → List Char → Bool
  | [], _ => true
  | _ :: _, [] => false
  | n :: ns, h :: hs => (n == h) && charsStartWith ns hs

/-- Test whether the first character list occurs contiguously inside the second. -/
def charsContain (needle : List Char) : List Char → Bool
  | [] => charsStartWith needle []
  | h :: hs => charsStartWith needle (h :: hs) || charsContain needle hs

/-- Does the message `msg` mention the phrase `phrase` (as a substring)? -/
def msgContains (msg phrase : String) : Bool :=
  charsContain phrase.toList msg.toList

/-- A result row: an ordered mapping from column name to a loosely typed value
(values collapsed to strings; no claim inspects them). -/
abbrev Row := List (String × String)

/-- A leased physical connection, opaque to the claims. -/
abbrev PooledConnection := Unit

/-- Live counters of the underlying `pg.Pool` (`totalCount`, `idleCount`,
`waitingCount` getters in the driver). -/
structure PgCounts where
  totalCount : Nat
  idleCount : Nat
  waitingCount : Nat
deriving DecidableEq, Repr

/-- Configuration captured at construction (`host`, `port`, `user`, `password`,
`database`, `ssl`, `pool.max`). Never mutated after pool creation. -/
structure PoolConfig where
  host : String
  port : Nat
  user : String
  password : String
  database : String
  ssl : Bool
  max : Nat
deriving DecidableEq, Repr

/-- Error taxonomy of the core: `PoolError` for lifecycle violations, driver
errors propagated unwrapped.  Each carries its message. -/
inductive PoolErr where
  | poolError (msg : String)
  | driverError (msg : String)
deriving DecidableEq, Repr

/-- Outcome of one driver round trip, supplied as a parameter: the driver
either resolves with a result shape (`rows` possibly undefined, `rowCount`
possibly null, `command` tag) or rejects with an error message. -/
inductive DriverOutcome where
  | ok (rows : Option (List Row)) (rowCount : Option Nat) (command : Option String)
  | err (msg : String)
deriving DecidableEq, Repr

/-- Outcome of the initialization round trips: the test connection may fail,
the probe query may fail, or both succeed and the underlying `pg.Pool` comes
up with the given live counters. -/
inductive InitOutcome where
  | connectFail (msg : String)
  | probeFail (msg : String)
  | success (counts : PgCounts)
deriving DecidableEq, Repr

/-- Modelled from the spec: the `ConnectionPool` class (its source file is not
under `src/`; only its unit tests are).  `pool` is the underlying `pg.Pool`
reference (`none` before `initialize()` and again after `shutdown()`, which
clears it — pinned by the test comment "After shutdown, pool is null"),
`isShuttingDown` the flag read by `isClosing()`, `totalQueries` the cumulative
query counter owned by this layer, and `networkCalls` the number of driver
round trips attempted so far. -/
structure ConnectionPool where
  config : PoolConfig
  pool : Option PgCounts
  isShuttingDown : Bool
  totalQueries : Nat
  networkCalls : Nat
deriving DecidableEq, Repr

/-- Construction: captures the config; no connection is made. -/
def ConnectionPool.create (cfg : PoolConfig) : ConnectionPool :=
  { config := cfg, pool := none, isShuttingDown := false
    totalQueries := 0, networkCalls := 0 }

/-- Modelled from the spec: `isInitialized()` — true exactly when the
underlying pool reference exists. -/
def ConnectionPool.isInitialized (p : ConnectionPool) : Bool :=
  p.pool.isSome

/-- Modelled from the spec: `isClosing()` — reads the shutting-down flag. -/
def ConnectionPool.isClosing (p : ConnectionPool) : Bool :=
  p.isShuttingDown

/-- Modelled from the spec: `initialize()`.  If already initialized, logs a
warning and returns without touching the network (idempotent no-op).
Otherwise it creates the underlying pool, performs one test acquisition and a
probe query; on failure the pool stays uninitialized and the call rejects with
a `PoolError` describing the cause. -/
def ConnectionPool.initPool (p : ConnectionPool) (env : InitOutcome) :
    Except PoolErr Unit × ConnectionPool :=
  if p.pool.isSome then
    (Except.ok (), p)
  else
    match env with
    | InitOutcome.connectFail m =>
        (Except.error (PoolErr.poolError ("Failed to initialize pool: " ++ m)),
         { p with networkCalls := p.networkCalls + 1 })
    | InitOutcome.probeFail m =>
        (Except.error (PoolErr.poolError ("Failed to initialize pool: " ++ m)),
         { p with networkCalls := p.networkCalls + 2 })
    | InitOutcome.success c =>
        (Except.ok (), { p with pool := some c, networkCalls := p.networkCalls + 2 })

/-- The normalized query result contract: `rows` (possibly undefined),
`rowsAffected` (driver row count, possibly absent), `command` tag, and
wall-clock execution time. -/
structure QueryResult where
  rows : Option (List Row)
  rowsAffected : Option Nat
  command : Option String
  executionTimeMs : Nat
deriving DecidableEq, Repr

/-- Modelled from the spec: `getConnection()`.  Rejects with a `PoolError`
mentioning "not initialized" whenever the underlying pool reference is absent
(the test comment pins that this same check fires after shutdown, because
shutdown clears the reference); otherwise hands out a leased connection. -/
def ConnectionPool.getConnection (p : ConnectionPool) :
    Except PoolErr PooledConnection × ConnectionPool :=
  match p.pool with
  | none => (Except.error (PoolErr.poolError "Pool not initialized"), p)
  | some _ => (Except.ok (), { p with networkCalls := p.networkCalls + 1 })

/-- Modelled from the spec: `releaseConnection(conn)` — returns the lease to
the idle set via the driver; no pool-layer state changes. -/
def ConnectionPool.releaseConnection (p : ConnectionPool) (_c : PooledConnection) :
    ConnectionPool :=
  p

/-- Modelled from the spec: `query(sql, params)`.  Fails fast with the
not-initialized `PoolError` when the pool reference is absent; otherwise it
increments the cumulative query counter exactly once (success or driver
failure alike), performs the round trip, and either returns the normalized
result with its execution time or propagates the driver error unwrapped. -/
def ConnectionPool.query (p : ConnectionPool) (_sql : String)
    (out : DriverOutcome) (elapsed : Nat) :
    Except PoolErr QueryResult × ConnectionPool :=
  match p.pool with
  | none => (Except.error (PoolErr.poolError "Pool not initialized"), p)
  | some _ =>
      let p' := { p with totalQueries := p.totalQueries + 1
                         networkCalls := p.networkCalls + 1 }
      match out with
      | DriverOutcome.ok rows rc cmd =>
          (Except.ok { rows := rows, rowsAffected := rc, command := cmd
                       executionTimeMs := elapsed }, p')
      | DriverOutcome.err m =>
          (Except.error (PoolErr.driverError m), p')

/-- The statistics snapshot: `total`, `active`, `idle`, `waiting` and the
cumulative `totalQueries`.  `active` is a JavaScript number computed by
subtraction, hence an `Int` here. -/
structure PoolStats where
  total : Nat
  active : Int
  idle : Nat
  waiting : Nat
  totalQueries : Nat
deriving DecidableEq, Repr

/-- Modelled from the spec: `getStats()` — synchronous; recomputes the
connection counters from the live underlying pool at call time, with
`active = total - idle` derived rather than stored, plus the cumulative query
counter owned by this layer.  Before initialization (and after shutdown) the
connection counters read as zero. -/
def ConnectionPool.getStats (p : ConnectionPool) : PoolStats :=
  match p.pool with
  | some c =>
      { total := c.totalCount
        active := (c.totalCount : Int) - (c.idleCount : Int)
        idle := c.idleCount
        waiting := c.waitingCount
        totalQueries := p.totalQueries }
  | none =>
      { total := 0, active := 0, idle := 0, waiting := 0
        totalQueries := p.totalQueries }

/-- The health verdict: `connected`, optional probe latency, optional error
message, optional stats snapshot.  Produced fresh on each call. -/
structure HealthReport where
  connected : Bool
  latencyMs : Option Nat
  error : Option String
  poolStats : Option PoolStats
deriving DecidableEq, Repr

/-- Modelled from the spec: the body of `checkHealth()` before its enclosing
try/catch.  Shutting down reports the shutting-down condition; an absent pool
reports "Pool not initialized"; otherwise the probe query runs and its
rejection escapes to the catch (the `Except.error` case). -/
def ConnectionPool.checkHealthAttempt (p : ConnectionPool)
    (probe : DriverOutcome) (elapsed : Nat) : Except String HealthReport :=
  if p.isShuttingDown then
    Except.ok { connected := false, latencyMs := none
                error := some "Pool is shutting down", poolStats := none }
  else
    match p.pool with
    | none =>
        Except.ok { connected := false, latencyMs := none
                    error := some "Pool not initialized", poolStats := none }
    | some _ =>
        match probe with
        | DriverOutcome.ok _ _ _ =>
            Except.ok { connected := true, latencyMs := some elapsed
                        error := none, poolStats := some p.getStats }
        | DriverOutcome.err m => Except.error m

/-- Modelled from the spec: `checkHealth()` — the try/catch around the body
converts any probe failure into a `connected := false` report carrying the
driver's message, so the operation always resolves to a `HealthReport`. -/
def ConnectionPool.checkHealth (p : ConnectionPool)
    (probe : DriverOutcome) (elapsed : Nat) : HealthReport :=
  match p.checkHealthAttempt probe elapsed with
  | Except.ok r => r
  | Except.error m =>
      { connected := false, latencyMs := none, error := some m, poolStats := none }

/-- Modelled from the spec: `shutdown()`.  On a never-initialized pool it
returns immediately.  Otherwise it sets the shutting-down flag, awaits the
underlying `end()` — whose failure, if any, is logged (the returned log list)
rather than rethrown — and clears the pool reference.  The operation itself
never rejects, which the total return type makes structural. -/
def ConnectionPool.shutdown (p : ConnectionPool) (endErr : Option String) :
    ConnectionPool × List String :=
  match p.pool with
  | none => (p, [])
  | some _ =>
      let logs := match endErr with
        | none => []
        | some m => ["Error during pool shutdown: " ++ m]
      ({ p with pool := none, isShuttingDown := true
                networkCalls := p.networkCalls + 1 }, logs)

/-- Run a sequence of `query()` calls; each element supplies the SQL text, the
driver outcome of that call and its elapsed time. -/
def ConnectionPool.runQueries (p : ConnectionPool)
    (qs : List (String × DriverOutcome × Nat)) : ConnectionPool :=
  qs.foldl (fun st q => (st.query q.1 q.2.1 q.2.2).2) p

/-- Result contract of the read execution path: `rows` plus `executionTimeMs`. -/
structure ReadQueryResult where
  rows : Option (List Row)
  executionTimeMs : Nat
deriving DecidableEq, Repr

/-- Result contract of the write execution path: `rowsAffected`, `command`,
`executionTimeMs`. -/
structure WriteQueryResult where
  rowsAffected : Option Nat
  command : Option String
  executionTimeMs : Nat
deriving DecidableEq, Repr

/-- Modelled from the spec: `PostgresAdapter.executeReadQuery` (the adapter
class file is not under `src/`; only its callers are).  It runs the shared
`query()` primitive of the pool and keeps the read-path fields of the result. -/
def executeReadQuery (p : ConnectionPool) (sql : String)
    (out : DriverOutcome) (elapsed : Nat) :
    Except PoolErr ReadQueryResult × ConnectionPool :=
  match p.query sql out elapsed with
  | (Except.ok r, p') =>
      (Except.ok { rows := r.rows, executionTimeMs := r.executionTimeMs }, p')
  | (Except.error e, p') => (Except.error e, p')

/-- Modelled from the spec: `PostgresAdapter.executeWriteQuery` — the same
shared `query()` primitive, keeping the write-path fields of the result. -/
def executeWriteQuery (p : ConnectionPool) (sql : String)
    (out : DriverOutcome) (elapsed : Nat) :
    Except PoolErr WriteQueryResult × ConnectionPool :=
  match p.query sql out elapsed with
  | (Except.ok r, p') =>
      (Except.ok { rowsAffected := r.rowsAffected, command := r.command
                   executionTimeMs := r.executionTimeMs }, p')
  | (Except.error e, p') => (Except.error e, p')

/-- Response shape of the `pg_read_query` tool
(`createReadQueryTool` in `src/adapters/postgresql/tools/core.ts`). -/
structure ReadToolResponse where
  rows : Option (List Row)
  rowCount : Nat
  executionTimeMs : Nat
deriving DecidableEq, Repr

/-- The `pg_read_query` handler (`tools/core.ts`, lines 46-54): it calls
`executeReadQuery` and returns `rows`, `rowCount := result.rows?.length ?? 0`
and `executionTimeMs`. -/
def readQueryHandler (p : ConnectionPool) (sql : String)
    (out : DriverOutcome) (elapsed : Nat) :
    Except PoolErr ReadToolResponse × ConnectionPool :=
  match executeReadQuery p sql out elapsed with
  | (Except.ok r, p') =>
      (Except.ok { rows := r.rows
                   rowCount := match r.rows with
                     | some l => l.length
                     | none => 0
                   executionTimeMs := r.executionTimeMs }, p')
  | (Except.error e, p') => (Except.error e, p')

/-- Response shape of the `pg_write_query` tool. -/
structure WriteToolResponse where
  rowsAffected : Option Nat
  command : Option String
  executionTimeMs : Nat
deriving DecidableEq, Repr

/-- The `pg_write_query` handler (`tools/core.ts`, lines 67-75): it calls
`executeWriteQuery` and returns `rowsAffected`, `command`, `executionTimeMs`. -/
def writeQueryHandler (p : ConnectionPool) (sql : String)
    (out : DriverOutcome) (elapsed : Nat) :
    Except PoolErr WriteToolResponse × ConnectionPool :=
  match executeWriteQuery p sql out elapsed with
  | (Except.ok r, p') =>
      (Except.ok { rowsAffected := r.rowsAffected, command := r.command
                   executionTimeMs := r.executionTimeMs }, p')
  | (Except.error e, p') => (Except.error e, p')

/-- Response of the `postgres://pool` resource handler: either the plain
error object or the stats/health/isInitialized triple. -/
inductive PoolResourceResponse where
  | errorResp (error : String)
  | report (stats : PoolStats) (health : HealthReport) (isInit : Bool)
deriving DecidableEq, Repr

/-- The `postgres://pool` resource handler (`resources/pool.ts`, lines 16-30):
`adapter.getPool()` yields the pool or nothing; without a pool the handler
returns the plain value with `error := "Pool not initialized"`, otherwise it
returns the pool's stats snapshot, health report and `isInitialized()`. -/
def poolResourceHandler (adapterPool : Option ConnectionPool)
    (probe : DriverOutcome) (elapsed : Nat) : PoolResourceResponse :=
  match adapterPool with
  | none => PoolResourceResponse.errorResp "Pool not initialized"
  | some p =>
      PoolResourceResponse.report p.getStats (p.checkHealth probe elapsed)
        p.isInitialized

/-- The configuration used by the unit tests. -/
def testConfig : PoolConfig :=
  { host := "localhost", port := 5432, user := "test", password := "test"
    database := "testdb", ssl := false, max := 10 }

/-- The live counters exposed by the mocked `pg.Pool` in the unit tests. -/
def testCounts : PgCounts :=
  { totalCount := 5, idleCount := 3, waitingCount := 0 }

/-- A pool that has been constructed and successfully initialized. -/
def readyPool : ConnectionPool :=
  ((ConnectionPool.create testConfig).initPool (InitOutcome.success testCounts)).2

/-- The ready pool after a completed `shutdown()`. -/
def closedPool : ConnectionPool :=
  (readyPool.shutdown none).1

lemma query_pool_eq (p : ConnectionPool) (sql : String)
    (out : DriverOutcome) (t : Nat) :
    ((p.query sql out t).2).pool = p.pool := by
  cases hp : p.pool <;> cases out <;> simp [ConnectionPool.query, hp]

lemma query_totalQueries_succ (p : ConnectionPool) (sql : String)
    (out : DriverOutcome) (t : Nat) (h : p.pool.isSome = true) :
    ((p.query sql out t).2).totalQueries = p.totalQueries + 1 := by
  cases hp : p.pool with
  | none => rw [hp] at h; simp at h
  | some c => cases out <;> simp [ConnectionPool.query, hp]

lemma getStats_totalQueries_eq (p : ConnectionPool) :
    (p.getStats).totalQueries = p.totalQueries := by
  cases hp : p.pool <;> simp [ConnectionPool.getStats, hp]

lemma runQueries_aux (qs : List (String × DriverOutcome × Nat)) :
    ∀ p : ConnectionPool, p.pool.isSome = true →
      (p.runQueries qs).totalQueries = p.totalQueries + qs.length ∧
      (p.runQueries qs).pool = p.pool := by
  induction qs with
  | nil => intro p _; simp [ConnectionPool.runQueries]
  | cons q rest ih =>
      intro p hp
      have hstep : p.runQueries (q :: rest)
          = ((p.query q.1 q.2.1 q.2.2).2).runQueries rest := rfl
      have hpool := query_pool_eq p q.1 q.2.1 q.2.2
      have hps : ((p.query q.1 q.2.1 q.2.2).2).pool.isSome = true := by
        rw [hpool]; exact hp
      have hrest := ih _ hps
      constructor
      · rw [hstep, hrest.1, query_totalQueries_succ p q.1 q.2.1 q.2.2 hp]
        simp [List.length_cons]
        omega
      · rw [hstep, hrest.2, hpool]

/-- Claim C2: for a pool in the Ready state, any sequence of N `query()`
calls — each succeeding or failing with a driver error — leaves
`getStats().totalQueries` exactly N above its prior value: the counter is
incremented exactly once per invocation, including failed ones. -/
theorem query_counter_increments_per_call (p : ConnectionPool)
    (qs : List (String × DriverOutcome × Nat)) (h : p.isInitialized = true) :
    ((p.runQueries qs).getStats).totalQueries
      = (p.getStats).totalQueries + qs.length := by
  simp only [ConnectionPool.isInitialized] at h
  rw [getStats_totalQueries_eq, getStats_totalQueries_eq]
  exact (runQueries_aux qs p h).1

/-- Witness for C2: on the initialized test pool, one successful and one
failed query raise the counter by exactly 2. -/
theorem query_counter_increments_per_call_witness :
    readyPool.isInitialized = true ∧
    ((readyPool.runQueries
        [("SELECT 1", DriverOutcome.ok (some []) (some 0) (some "SELECT"), 1),
         ("SELECT 2", DriverOutcome.err "syntax error", 1)]).getStats).totalQueries
      = (readyPool.getStats).totalQueries + 2 :=
  ⟨rfl, query_counter_increments_per_call readyPool
      [("SELECT 1", DriverOutcome.ok (some []) (some 0) (some "SELECT"), 1),
       ("SELECT 2", DriverOutcome.err "syntax error", 1)] rfl⟩

/-- Claim C4: at every observation point — whatever acquire/release history
produced the current state — the snapshot returned by `getStats()` satisfies
`active = total - idle`; `active` is derived from the live underlying
counters at call time, not stored independently. -/
theorem getStats_active_derived (p : ConnectionPool) :
    (p.getStats).active = ((p.getStats).total : Int) - ((p.getStats).idle : Int) := by
  cases hp : p.pool <;> simp [ConnectionPool.getStats, hp]

/-- Claim C5: `initialize()` on an already-Ready pool is an idempotent no-op:
it does not throw, leaves the state — in particular the underlying pool
reference and the count of driver round trips (so `connect` is not invoked
again) — unchanged, and `isInitialized()` stays true. -/
theorem initialize_idempotent (p : ConnectionPool) (env : InitOutcome)
    (h : p.isInitialized = true) :
    p.initPool env = (Except.ok (), p) ∧
    ((p.initPool env).2).isInitialized = true ∧
    ((p.initPool env).2).networkCalls = p.networkCalls := by
  simp only [ConnectionPool.isInitialized] at h
  refine ⟨by simp [ConnectionPool.initPool, h], ?_, ?_⟩ <;>
    simp [ConnectionPool.initPool, h, ConnectionPool.isInitialized]

/-- Witness for C5: a second `initialize()` on the initialized test pool
returns success and the identical state. -/
theorem initialize_idempotent_witness :
    readyPool.isInitialized = true ∧
    readyPool.initPool (InitOutcome.success testCounts)
      = (Except.ok (), readyPool) :=
  ⟨rfl, (initialize_idempotent readyPool (InitOutcome.success testCounts) rfl).1⟩

/-- Claim C6: on a freshly constructed, never-initialized pool, both
`getConnection()` and `query()` reject with a `PoolError` whose message
contains "not initialized", leaving the state untouched with zero driver
round trips attempted. -/
theorem fresh_pool_fails_fast (cfg : PoolConfig) (sql : String)
    (out : DriverOutcome) (t : Nat) :
    ((ConnectionPool.create cfg).getConnection).1
        = Except.error (PoolErr.poolError "Pool not initialized") ∧
    ((ConnectionPool.create cfg).getConnection).2 = ConnectionPool.create cfg ∧
    ((ConnectionPool.create cfg).query sql out t).1
        = Except.error (PoolErr.poolError "Pool not initialized") ∧
    ((ConnectionPool.create cfg).query sql out t).2 = ConnectionPool.create cfg ∧
    (ConnectionPool.create cfg).networkCalls = 0 ∧
    msgContains "Pool not initialized" "not initialized" = true :=
  ⟨rfl, rfl, rfl, rfl, rfl, by decide⟩

/-- Counterexample for C1: after `initialize()` and a resolved `shutdown()`,
`isClosing()` is true, but `getConnection()` and `query()` reject with the
message "Pool not initialized" — which does not mention "shutting down" and
does mention "not initialized" — refuting the claimed error wording at this
concrete input. -/
theorem shutdown_error_message_counterexample :
    closedPool.isClosing = true ∧
    (closedPool.getConnection).1
      = Except.error (PoolErr.poolError "Pool not initialized") ∧
    (closedPool.query "SELECT 1" (DriverOutcome.ok (some []) (some 0) none) 0).1
      = Except.error (PoolErr.poolError "Pool not initialized") ∧
    msgContains "Pool not initialized" "shutting down" = false ∧
    msgContains "Pool not initialized" "not initialized" = true :=
  ⟨rfl, rfl, rfl, by decide, by decide⟩

/-- Claim C1 as amended: after `shutdown()` resolves on an initialized pool,
`isClosing()` is true, and subsequent `getConnection()`/`query()` calls
reject with a `PoolError` mentioning "not initialized" (shutdown clears the
underlying pool reference, so the not-initialized check fires); the
"shutting down" wording is reported by `checkHealth()` instead. -/
theorem shutdown_finality_amended (p : ConnectionPool) (e : Option String)
    (sql : String) (out : DriverOutcome) (t : Nat)
    (h : p.isInitialized = true) :
    ((p.shutdown e).1).isClosing = true ∧
    (((p.shutdown e).1).getConnection).1
      = Except.error (PoolErr.poolError "Pool not initialized") ∧
    (((p.shutdown e).1).query sql out t).1
      = Except.error (PoolErr.poolError "Pool not initialized") ∧
    msgContains "Pool not initialized" "not initialized" = true ∧
    ((p.shutdown e).1).checkHealth out t
      = { connected := false, latencyMs := none
          error := some "Pool is shutting down", poolStats := none } ∧
    msgContains "Pool is shutting down" "shutting down" = true := by
  simp only [ConnectionPool.isInitialized] at h
  cases hp : p.pool with
  | none => rw [hp] at h; simp at h
  | some c =>
      refine ⟨?_, ?_, ?_, by decide, ?_, by decide⟩ <;>
        simp [ConnectionPool.shutdown, hp, ConnectionPool.isClosing,
              ConnectionPool.getConnection, ConnectionPool.query,
              ConnectionPool.checkHealth, ConnectionPool.checkHealthAttempt]

/-- Witness for the amended C1: the concrete initialized test pool, shut down
with a failing `end()`, shows the amended behaviour. -/
theorem shutdown_finality_amended_witness :
    readyPool.isInitialized = true ∧
    (((readyPool.shutdown (some "boom")).1).getConnection).1
      = Except.error (PoolErr.poolError "Pool not initialized") :=
  ⟨rfl, (shutdown_finality_amended readyPool (some "boom") "SELECT 1"
      (DriverOutcome.err "x") 0 rfl).2.1⟩

/-- Claim C3: `checkHealth()` always resolves to a `HealthReport` value: on
an uninitialized pool it reports not-initialized, on a Ready pool with a
successful probe it reports connected with latency and stats, on a Ready
pool whose probe fails it reports the driver message as data, and any error
escaping the body is converted by the catch into a `connected := false`
report rather than propagating. -/
theorem checkHealth_total_cases (p : ConnectionPool) (probe : DriverOutcome)
    (t : Nat) :
    (p.isShuttingDown = false → p.pool = none →
        p.checkHealth probe t
          = { connected := false, latencyMs := none
              error := some "Pool not initialized", poolStats := none }) ∧
    (∀ c rows rc cmd, p.isShuttingDown = false → p.pool = some c →
        probe = DriverOutcome.ok rows rc cmd →
        p.checkHealth probe t
          = { connected := true, latencyMs := some t
              error := none, poolStats := some p.getStats }) ∧
    (∀ c m, p.isShuttingDown = false → p.pool = some c →
        probe = DriverOutcome.err m →
        p.checkHealth probe t
          = { connected := false, latencyMs := none
              error := some m, poolStats := none }) ∧
    (∀ m, p.checkHealthAttempt probe t = Except.error m →
        p.checkHealth probe t
          = { connected := false, latencyMs := none
              error := some m, poolStats := none }) := by
  refine ⟨?_, ?_, ?_, ?_⟩
  · intro hs hp
    simp [ConnectionPool.checkHealth, ConnectionPool.checkHealthAttempt, hs, hp]
  · intro c rows rc cmd hs hp hprobe
    simp [ConnectionPool.checkHealth, ConnectionPool.checkHealthAttempt,
          hs, hp, hprobe]
  · intro c m hs hp hprobe
    simp [ConnectionPool.checkHealth, ConnectionPool.checkHealthAttempt,
          hs, hp, hprobe]
  · intro m hm
    simp [ConnectionPool.checkHealth, hm]

/-- Witness for C3: on the initialized test pool with a probe rejecting with
"Connection refused", `checkHealth()` resolves to the not-connected report
carrying that message. -/
theorem checkHealth_total_cases_witness :
    readyPool.checkHealth (DriverOutcome.err "Connection refused") 0
      = { connected := false, latencyMs := none
          error := some "Connection refused", poolStats := none } :=
  (checkHealth_total_cases readyPool (DriverOutcome.err "Connection refused")
      0).2.2.1 testCounts "Connection refused" rfl rfl rfl

/-- Claim C7: `shutdown()` never throws: on a never-initialized pool it
resolves immediately without error or logs, and when the underlying `end()`
throws, the resulting state is the same as in a clean shutdown while the
error is only logged; `isClosing()` is true afterwards. -/
theorem shutdown_never_throws (cfg : PoolConfig) (e : Option String)
    (p : ConnectionPool) (m : String) (h : p.isInitialized = true) :
    (ConnectionPool.create cfg).shutdown e = (ConnectionPool.create cfg, []) ∧
    (p.shutdown (some m)).1 = (p.shutdown none).1 ∧
    (p.shutdown (some m)).2 = ["Error during pool shutdown: " ++ m] ∧
    ((p.shutdown (some m)).1).isClosing = true := by
  simp only [ConnectionPool.isInitialized] at h
  cases hp : p.pool with
  | none => rw [hp] at h; simp at h
  | some c =>
      refine ⟨rfl, ?_, ?_, ?_⟩ <;>
        simp [ConnectionPool.shutdown, hp, ConnectionPool.isClosing]

/-- Witness for C7: the concrete test pool, with `end()` made to throw
"boom", still shuts down into the same state as a clean shutdown and only
logs the error. -/
theorem shutdown_never_throws_witness :
    readyPool.isInitialized = true ∧
    (readyPool.shutdown (some "boom")).2 = ["Error during pool shutdown: boom"] :=
  ⟨rfl, (shutdown_never_throws testConfig none readyPool "boom" rfl).2.2.1⟩

/-- Claim C8: the read and write execution paths are backed by the same
underlying `query()` primitive and differ only in which fields of its result
they return: on success the read path exposes `rows` and `executionTimeMs`,
the write path `rowsAffected`, `command` and `executionTimeMs`; a failure of
the shared primitive propagates identically through both. -/
theorem read_write_paths_share_query (p : ConnectionPool) (sql : String)
    (out : DriverOutcome) (t : Nat) :
    (∀ r p', p.query sql out t = (Except.ok r, p') →
        executeReadQuery p sql out t
          = (Except.ok { rows := r.rows, executionTimeMs := r.executionTimeMs }, p') ∧
        executeWriteQuery p sql out t
          = (Except.ok { rowsAffected := r.rowsAffected, command := r.command
                         executionTimeMs := r.executionTimeMs }, p')) ∧
    (∀ e p', p.query sql out t = (Except.error e, p') →
        executeReadQuery p sql out t = (Except.error e, p') ∧
        executeWriteQuery p sql out t = (Except.error e, p')) := by
  constructor
  · intro r p' h
    constructor <;> simp [executeReadQuery, executeWriteQuery, h]
  · intro e p' h
    constructor <;> simp [executeReadQuery, executeWriteQuery, h]

/-- Witness for C8: a concrete successful write-shaped query through both
paths of the initialized test pool. -/
theorem read_write_paths_share_query_witness :
    executeReadQuery readyPool "INSERT"
        (DriverOutcome.ok (some []) (some 1) (some "INSERT")) 7
      = (Except.ok { rows := some [], executionTimeMs := 7 },
         { readyPool with totalQueries := 1, networkCalls := 3 }) ∧
    executeWriteQuery readyPool "INSERT"
        (DriverOutcome.ok (some []) (some 1) (some "INSERT")) 7
      = (Except.ok { rowsAffected := some 1, command := some "INSERT"
                     executionTimeMs := 7 },
         { readyPool with totalQueries := 1, networkCalls := 3 }) :=
  (read_write_paths_share_query readyPool "INSERT"
      (DriverOutcome.ok (some []) (some 1) (some "INSERT")) 7).1
    { rows := some [], rowsAffected := some 1, command := some "INSERT"
      executionTimeMs := 7 }
    { readyPool with totalQueries := 1, networkCalls := 3 } rfl

/-- Claim C9: every successful `pg_read_query` invocation returns a response
whose `rowCount` equals the length of the returned `rows` array, and equals 0
when the underlying result rows are undefined — the public read tool exposes
a `rowCount` computed from the row array, not taken from the driver. -/
theorem readTool_rowCount_matches_rows (p : ConnectionPool) (sql : String)
    (out : DriverOutcome) (t : Nat) (resp : ReadToolResponse)
    (p' : ConnectionPool)
    (h : readQueryHandler p sql out t = (Except.ok resp, p')) :
    resp.rowCount = (match resp.rows with | some l => l.length | none => 0) := by
  cases hp : p.pool with
  | none =>
      simp [readQueryHandler, executeReadQuery, ConnectionPool.query, hp] at h
  | some c =>
      cases out with
      | err m =>
          simp [readQueryHandler, executeReadQuery, ConnectionPool.query, hp] at h
      | ok rows rc cmd =>
          cases rows with
          | none =>
              have hred : readQueryHandler p sql (DriverOutcome.ok none rc cmd) t
                  = (Except.ok { rows := none, rowCount := 0, executionTimeMs := t },
                     { p with totalQueries := p.totalQueries + 1
                              networkCalls := p.networkCalls + 1 }) := by
                simp [readQueryHandler, executeReadQuery, ConnectionPool.query, hp]
              rw [hred] at h
              injection h with h1 h2
              injection h1 with h3
              subst h3
              rfl
          | some l =>
              have hred : readQueryHandler p sql (DriverOutcome.ok (some l) rc cmd) t
                  = (Except.ok { rows := some l, rowCount := l.length
                                 executionTimeMs := t },
                     { p with totalQueries := p.totalQueries + 1
                              networkCalls := p.networkCalls + 1 }) := by
                simp [readQueryHandler, executeReadQuery, ConnectionPool.query, hp]
              rw [hred] at h
              injection h with h1 h2
              injection h1 with h3
              subst h3
              rfl

/-- Witness for C9: a successful read on the test pool whose driver result
has undefined rows while the driver claims a row count of 3 — the response
exposes `rowCount = 0`, computed from the row array. -/
theorem readTool_rowCount_matches_rows_witness :
    readQueryHandler readyPool "SELECT 1"
        (DriverOutcome.ok none (some 3) (some "SELECT")) 2
      = (Except.ok { rows := none, rowCount := 0, executionTimeMs := 2 },
         { readyPool with totalQueries := 1, networkCalls := 3 }) ∧
    ({ rows := none, rowCount := 0, executionTimeMs := 2 } : ReadToolResponse).rowCount
      = (match (none : Option (List Row)) with | some l => l.length | none => 0) :=
  ⟨rfl, readTool_rowCount_matches_rows readyPool "SELECT 1"
      (DriverOutcome.ok none (some 3) (some "SELECT")) 2
      { rows := none, rowCount := 0, executionTimeMs := 2 }
      { readyPool with totalQueries := 1, networkCalls := 3 } rfl⟩

/-- Claim C10: the `postgres://pool` resource handler returns the plain value
with error "Pool not initialized" when the adapter holds no pool instance —
rather than throwing, which its total return type makes structural — and
otherwise returns the pool's stats snapshot, health report and
`isInitialized()`. -/
theorem poolResource_handles_missing_pool (p : ConnectionPool)
    (probe : DriverOutcome) (t : Nat) :
    poolResourceHandler none probe t
      = PoolResourceResponse.errorResp "Pool not initialized" ∧
    poolResourceHandler (some p) probe t
      = PoolResourceResponse.report p.getStats (p.checkHealth probe t)
          p.isInitialized :=
  ⟨rfl, rfl⟩
